import Mathlib

/-!
# Checkpoint coordination core of `vmware-go-kcl-v2`

A shallow embedding of `clientlibrary/worker/record-processor-checkpointer.go`.

Go pointers and interfaces that may be nil are embedded as `Option`;
Go `error` results as `Option GoError` (with `none` the nil error, i.e.
success); the wall clock (`time.Now()`) as an explicit `Int` parameter;
the external `chk.Checkpointer` collaborator (the lease ledger) as a
structure of response functions; in-place mutation of the shard status
as explicit state passing: `Checkpoint` returns the resulting error, the
resulting shard state and whether the ledger persist call was invoked.
A Go runtime panic (nil-pointer dereference) is a distinguished outcome
`GoOutcome.nilPanic`, distinct from every returned value.
-/

namespace KCL

/-- The distinguished error values declared at the top of
`record-processor-checkpointer.go` (`ShutdownError`, `LeaseExpiredError`),
together with arbitrary other Go `error` values (infrastructure failures
produced by the lease ledger). -/
inductive GoError where
  | ShutdownError
  | LeaseExpiredError
  | other (msg : String)
deriving DecidableEq, Repr

/-- Modelled from the spec: the checkpoint value stored in a Shard
Ownership Handle is "either a sequence-position string or a sentinel
shard fully consumed marker" — the `chk.ShardEnd` constant and the
package defining it are not among the sources here, so the sentinel is
embedded as a constructor of its own, distinct by construction from
every concrete sequence-position string. -/
inductive CheckpointValue where
  | shardEnd
  | seq (s : String)
deriving DecidableEq, Repr

/-- The `chk.ShardEnd` sentinel written for a closed shard. -/
def ShardEnd : CheckpointValue := CheckpointValue.shardEnd

/-- Modelled from the spec: the Shard Ownership Handle
(`par.ShardStatus`, whose defining package is not among the sources):
shard identifier, locally cached owner identity, lease expiry timestamp
and last checkpoint value — exactly the fields the checkpointer code
reads and writes. -/
structure ShardStatus where
  ID : String
  AssignedTo : String
  LeaseTimeout : Int
  Checkpoint : CheckpointValue
deriving DecidableEq, Repr

/-- Modelled from the spec: `par.ShardStatus.SetCheckpoint` replaces the
handle's cached checkpoint value. -/
def ShardStatus.SetCheckpoint (s : ShardStatus) (c : CheckpointValue) : ShardStatus :=
  { s with Checkpoint := c }

/-- The consumed `chk.Checkpointer` (lease ledger) contract, embedded as
the responses the external store gives during one call:
`GetLeaseOwner shardID` answers `(ownerIdentity, error)` and
`CheckpointSequence handle` answers the persist error (`none` on
success). -/
structure Checkpointer where
  GetLeaseOwner : String → String × Option GoError
  CheckpointSequence : ShardStatus → Option GoError

/-- `RecordProcessorCheckpointer`: the per-shard checkpoint coordinator,
holding the shard status and the ledger capability. -/
structure RecordProcessorCheckpointer where
  shard : ShardStatus
  checkpoint : Checkpointer

/-- Outcome of one `Checkpoint` call: the returned Go error (`none` =
success), the shard status afterwards, and whether the ledger's
`CheckpointSequence` persist operation was invoked. -/
structure CheckpointOutcome where
  result : Option GoError
  shard : ShardStatus
  persistCalled : Bool
deriving Repr

/-- Outcome of a Go expression that may panic at runtime:
either a value, or a nil-pointer-dereference panic. -/
inductive GoOutcome (α : Type) where
  | ok (a : α)
  | nilPanic
deriving DecidableEq, Repr

/-- `PreparedCheckpointer`: the deferred checkpoint token. Its two
fields are a pointer (`*kcl.ExtendedSequenceNumber`) and an interface
(`kcl.IRecordProcessorCheckpointer`), both nilable, hence `Option`.
The pinned position is embedded directly as the optional
sequence-position string it carries (the `SequenceNumber` field the code
reads from it). -/
structure PreparedCheckpointer where
  pendingCheckpointSequenceNumber : Option (Option String)
  checkpointer : Option RecordProcessorCheckpointer

/-- `PreparedCheckpointer.GetPendingCheckpoint`: returns the pending
sequence number field, a pure accessor. -/
def PreparedCheckpointer.GetPendingCheckpoint (pc : PreparedCheckpointer) :
    Option (Option String) :=
  pc.pendingCheckpointSequenceNumber

/-- `RecordProcessorCheckpointer.Checkpoint`: query the ledger for the
current lease owner; propagate a query error verbatim; return
`ShutdownError` if the recorded owner differs from the locally cached
one; return `LeaseExpiredError` if `time.Now().After(LeaseTimeout)`;
otherwise set the cached checkpoint (to `ShardEnd` when the sequence
number is nil) and persist through the ledger, returning the persist
call's error. -/
def RecordProcessorCheckpointer.Checkpoint (rc : RecordProcessorCheckpointer)
    (now : Int) (sequenceNumber : Option String) : CheckpointOutcome :=
  match rc.checkpoint.GetLeaseOwner rc.shard.ID with
  | (_, some err) =>
    { result := some err, shard := rc.shard, persistCalled := false }
  | (currLeaseOwner, none) =>
    if rc.shard.AssignedTo ≠ currLeaseOwner then
      { result := some GoError.ShutdownError, shard := rc.shard, persistCalled := false }
    else if rc.shard.LeaseTimeout < now then
      { result := some GoError.LeaseExpiredError, shard := rc.shard, persistCalled := false }
    else
      let shard' :=
        match sequenceNumber with
        | none => rc.shard.SetCheckpoint ShardEnd
        | some sn => rc.shard.SetCheckpoint (CheckpointValue.seq sn)
      { result := rc.checkpoint.CheckpointSequence shard'
        shard := shard'
        persistCalled := true }

/-- `RecordProcessorCheckpointer.PrepareCheckpoint`: the source ignores
both its receiver and its argument and returns a fresh zero-valued
`&PreparedCheckpointer{}` (both fields nil) together with a nil error. -/
def RecordProcessorCheckpointer.PrepareCheckpoint
    (_rc : RecordProcessorCheckpointer) (_sequenceNumber : Option String) :
    PreparedCheckpointer × Option GoError :=
  ({ pendingCheckpointSequenceNumber := none, checkpointer := none }, none)

/-- `PreparedCheckpointer.Checkpoint` (Commit): evaluates
`pc.checkpointer.Checkpoint(pc.pendingCheckpointSequenceNumber.SequenceNumber)`.
Reading the `SequenceNumber` field of a nil pointer panics, as does
invoking `Checkpoint` on a nil interface; otherwise it is exactly a
direct `Checkpoint` call on the owning coordinator at the pinned
position. -/
def PreparedCheckpointer.Checkpoint (pc : PreparedCheckpointer)
    (now : Int) : GoOutcome CheckpointOutcome :=
  match pc.pendingCheckpointSequenceNumber with
  | none => GoOutcome.nilPanic
  | some sequenceNumber =>
    match pc.checkpointer with
    | none => GoOutcome.nilPanic
    | some rc => GoOutcome.ok (rc.Checkpoint now sequenceNumber)

/-! ## Concrete fixtures for witnesses and counterexamples -/

/-- A ledger whose owner query always answers `"W1"` with no error and
whose persist always succeeds. -/
def ledgerOk : Checkpointer :=
  { GetLeaseOwner := fun _ => ("W1", none)
    CheckpointSequence := fun _ => none }

/-- A ledger whose owner query fails with an infrastructure error. -/
def ledgerQueryFails : Checkpointer :=
  { GetLeaseOwner := fun _ => ("", some (GoError.other "connection reset"))
    CheckpointSequence := fun _ => none }

/-- A ledger whose owner query answers `"W1"` but whose persist call
fails. -/
def ledgerPersistFails : Checkpointer :=
  { GetLeaseOwner := fun _ => ("W1", none)
    CheckpointSequence := fun _ => some (GoError.other "write failed") }

/-- A shard assigned to `"W1"` with an unexpired lease (expiry 5). -/
def shardW1 : ShardStatus :=
  { ID := "shardId-000", AssignedTo := "W1", LeaseTimeout := 5
    Checkpoint := CheckpointValue.seq "0" }

/-- A shard assigned to `"W2"` (differs from the ledger's `"W1"`). -/
def shardW2 : ShardStatus :=
  { ID := "shardId-000", AssignedTo := "W2", LeaseTimeout := 5
    Checkpoint := CheckpointValue.seq "0" }

/-- A shard assigned to `"W1"` whose lease expiry equals instant 0. -/
def shardBoundary : ShardStatus :=
  { ID := "shardId-000", AssignedTo := "W1", LeaseTimeout := 0
    Checkpoint := CheckpointValue.seq "0" }

/-- Coordinator: matching owner, live lease, healthy ledger. -/
def rcOk : RecordProcessorCheckpointer :=
  { shard := shardW1, checkpoint := ledgerOk }

/-- Coordinator: mismatched owner. -/
def rcStolen : RecordProcessorCheckpointer :=
  { shard := shardW2, checkpoint := ledgerOk }

/-- Coordinator: owner query fails. -/
def rcQueryFails : RecordProcessorCheckpointer :=
  { shard := shardW1, checkpoint := ledgerQueryFails }

/-- Coordinator: checks pass but persist fails. -/
def rcPersistFails : RecordProcessorCheckpointer :=
  { shard := shardW1, checkpoint := ledgerPersistFails }

/-- Coordinator: lease expiry exactly equal to the current instant. -/
def rcBoundary : RecordProcessorCheckpointer :=
  { shard := shardBoundary, checkpoint := ledgerOk }

/-! ## Claims -/

/-- C1: the claim says `Commit()` on a token from `PrepareCheckpoint(p)`
performs the same validation and produces the same result as a direct
`Checkpoint(p)` at that moment. In the code, `PrepareCheckpoint` returns
a zero-valued token (nil error), and the token's `Checkpoint` always
crashes with a nil-pointer dereference, never producing the direct
call's outcome. -/
theorem prepare_commit_diverges_from_direct_checkpoint
    (rc : RecordProcessorCheckpointer) (p : String) (now : Int) :
    (rc.PrepareCheckpoint (some p)).2 = none ∧
    (rc.PrepareCheckpoint (some p)).1.Checkpoint now = GoOutcome.nilPanic ∧
    (rc.PrepareCheckpoint (some p)).1.Checkpoint now ≠
      GoOutcome.ok (rc.Checkpoint now (some p)) :=
  ⟨rfl, rfl, fun h => GoOutcome.noConfusion h⟩

/-- C2: the claim says the token captures `p` and a reference to the
coordinator, and `GetPendingCheckpoint` returns exactly `p`. In the
code, the token's pending sequence number and coordinator reference are
both nil: `GetPendingCheckpoint` returns nil, not `p`. -/
theorem prepare_token_captures_nothing
    (rc : RecordProcessorCheckpointer) (p : String) :
    (rc.PrepareCheckpoint (some p)).1.GetPendingCheckpoint = none ∧
    (rc.PrepareCheckpoint (some p)).1.checkpointer = none :=
  ⟨rfl, rfl⟩

/-- C3: every token produced by `PrepareCheckpoint` has both fields nil,
and calling its `Checkpoint` crashes with a nil-pointer dereference
instead of returning an error. -/
theorem prepared_token_checkpoint_nil_panic
    (rc : RecordProcessorCheckpointer) (sn : Option String) (now : Int) :
    (rc.PrepareCheckpoint sn).1.pendingCheckpointSequenceNumber = none ∧
    (rc.PrepareCheckpoint sn).1.checkpointer = none ∧
    (rc.PrepareCheckpoint sn).1.Checkpoint now = GoOutcome.nilPanic :=
  ⟨rfl, rfl, rfl⟩

/-- C4: when the owner query succeeds with the locally cached owner, the
lease expiry is after the current time, and the persist succeeds,
`Checkpoint(p)` returns success and the handle's checkpoint value equals
`p` afterwards. -/
theorem checkpoint_success_sets_value
    (rc : RecordProcessorCheckpointer) (now : Int) (p owner : String)
    (hq : rc.checkpoint.GetLeaseOwner rc.shard.ID = (owner, none))
    (ho : rc.shard.AssignedTo = owner)
    (hl : now < rc.shard.LeaseTimeout)
    (hp : rc.checkpoint.CheckpointSequence
            (rc.shard.SetCheckpoint (CheckpointValue.seq p)) = none) :
    (rc.Checkpoint now (some p)).result = none ∧
    (rc.Checkpoint now (some p)).shard.Checkpoint = CheckpointValue.seq p := by
  have h2 : ¬ rc.shard.LeaseTimeout < now := by omega
  simp [ShardStatus.SetCheckpoint, ho] at hp
  simp [RecordProcessorCheckpointer.Checkpoint, hq, ho, h2, hp,
    ShardStatus.SetCheckpoint]

/-- Witness for C4 at the concrete state of `rcOk`, instant 0, position
`"49590"`. -/
theorem checkpoint_success_sets_value_witness :
    (rcOk.checkpoint.GetLeaseOwner rcOk.shard.ID = ("W1", none) ∧
     rcOk.shard.AssignedTo = "W1" ∧
     (0 : Int) < rcOk.shard.LeaseTimeout ∧
     rcOk.checkpoint.CheckpointSequence
       (rcOk.shard.SetCheckpoint (CheckpointValue.seq "49590")) = none) ∧
    (rcOk.Checkpoint 0 (some "49590")).result = none ∧
    (rcOk.Checkpoint 0 (some "49590")).shard.Checkpoint =
      CheckpointValue.seq "49590" :=
  ⟨⟨rfl, rfl, by decide, rfl⟩,
   checkpoint_success_sets_value rcOk 0 "49590" "W1" rfl rfl (by decide) rfl⟩

/-- C5: when the owner query succeeds with an owner different from the
locally cached one, `Checkpoint(p)` returns `ShutdownError`, does not
invoke the persist operation, and leaves the handle unchanged —
regardless of lease expiry. -/
theorem checkpoint_owner_mismatch_shutdown
    (rc : RecordProcessorCheckpointer) (now : Int) (sn : Option String)
    (owner : String)
    (hq : rc.checkpoint.GetLeaseOwner rc.shard.ID = (owner, none))
    (ho : rc.shard.AssignedTo ≠ owner) :
    (rc.Checkpoint now sn).result = some GoError.ShutdownError ∧
    (rc.Checkpoint now sn).persistCalled = false ∧
    (rc.Checkpoint now sn).shard = rc.shard := by
  simp [RecordProcessorCheckpointer.Checkpoint, hq, ho]

/-- Witness for C5 at the concrete state of `rcStolen` (local owner
`"W2"`, ledger owner `"W1"`). -/
theorem checkpoint_owner_mismatch_shutdown_witness :
    (rcStolen.checkpoint.GetLeaseOwner rcStolen.shard.ID = ("W1", none) ∧
     rcStolen.shard.AssignedTo ≠ "W1") ∧
    (rcStolen.Checkpoint 0 (some "49590")).result = some GoError.ShutdownError ∧
    (rcStolen.Checkpoint 0 (some "49590")).persistCalled = false ∧
    (rcStolen.Checkpoint 0 (some "49590")).shard = rcStolen.shard :=
  ⟨⟨rfl, by decide⟩,
   checkpoint_owner_mismatch_shutdown rcStolen 0 (some "49590") "W1" rfl
     (by decide)⟩

/-- C6 counterexample: the claim includes the boundary case where the
lease expiry is exactly equal to the current time. The code uses the
strict comparison `time.Now().After(LeaseTimeout)`, so at
`now = LeaseTimeout` (here both 0, owner matching, ledger healthy)
`Checkpoint` does not return `LeaseExpiredError` and the persist
operation is invoked. -/
theorem checkpoint_lease_boundary_counterexample :
    rcBoundary.checkpoint.GetLeaseOwner rcBoundary.shard.ID = ("W1", none) ∧
    rcBoundary.shard.AssignedTo = "W1" ∧
    rcBoundary.shard.LeaseTimeout = (0 : Int) ∧
    (rcBoundary.Checkpoint 0 (some "49590")).result ≠
      some GoError.LeaseExpiredError ∧
    (rcBoundary.Checkpoint 0 (some "49590")).persistCalled = true :=
  ⟨rfl, rfl, rfl, by decide, rfl⟩

/-- C6 amended: when the owner query succeeds with a matching owner and
the lease expiry is strictly before the current time, `Checkpoint`
returns `LeaseExpiredError` without invoking the persist operation (at
`now = LeaseTimeout` exactly, the call proceeds instead). -/
theorem checkpoint_lease_strictly_expired
    (rc : RecordProcessorCheckpointer) (now : Int) (sn : Option String)
    (owner : String)
    (hq : rc.checkpoint.GetLeaseOwner rc.shard.ID = (owner, none))
    (ho : rc.shard.AssignedTo = owner)
    (hl : rc.shard.LeaseTimeout < now) :
    (rc.Checkpoint now sn).result = some GoError.LeaseExpiredError ∧
    (rc.Checkpoint now sn).persistCalled = false ∧
    (rc.Checkpoint now sn).shard = rc.shard := by
  simp [RecordProcessorCheckpointer.Checkpoint, hq, ho, hl]

/-- Witness for the amended C6: `rcBoundary` (lease expiry 0) observed
at instant 1. -/
theorem checkpoint_lease_strictly_expired_witness :
    (rcBoundary.checkpoint.GetLeaseOwner rcBoundary.shard.ID = ("W1", none) ∧
     rcBoundary.shard.AssignedTo = "W1" ∧
     rcBoundary.shard.LeaseTimeout < (1 : Int)) ∧
    (rcBoundary.Checkpoint 1 (some "49590")).result =
      some GoError.LeaseExpiredError ∧
    (rcBoundary.Checkpoint 1 (some "49590")).persistCalled = false ∧
    (rcBoundary.Checkpoint 1 (some "49590")).shard = rcBoundary.shard :=
  ⟨⟨rfl, rfl, by decide⟩,
   checkpoint_lease_strictly_expired rcBoundary 1 (some "49590") "W1" rfl rfl
     (by decide)⟩

/-- C7: if the ledger's `GetLeaseOwner` call returns an error `e`,
`Checkpoint` returns exactly `e`, does not invoke the persist operation
and does not modify the shard ownership handle. -/
theorem checkpoint_query_error_propagates
    (rc : RecordProcessorCheckpointer) (now : Int) (sn : Option String)
    (o : String) (e : GoError)
    (hq : rc.checkpoint.GetLeaseOwner rc.shard.ID = (o, some e)) :
    (rc.Checkpoint now sn).result = some e ∧
    (rc.Checkpoint now sn).persistCalled = false ∧
    (rc.Checkpoint now sn).shard = rc.shard := by
  simp [RecordProcessorCheckpointer.Checkpoint, hq]

/-- Witness for C7 at the concrete state of `rcQueryFails`. -/
theorem checkpoint_query_error_propagates_witness :
    rcQueryFails.checkpoint.GetLeaseOwner rcQueryFails.shard.ID =
      ("", some (GoError.other "connection reset")) ∧
    (rcQueryFails.Checkpoint 0 (some "49590")).result =
      some (GoError.other "connection reset") ∧
    (rcQueryFails.Checkpoint 0 (some "49590")).persistCalled = false ∧
    (rcQueryFails.Checkpoint 0 (some "49590")).shard = rcQueryFails.shard :=
  ⟨rfl,
   checkpoint_query_error_propagates rcQueryFails 0 (some "49590") ""
     (GoError.other "connection reset") rfl⟩

/-- C8: whenever the ownership and lease checks pass, the handle's
cached checkpoint value is updated (to `p`, or to `ShardEnd` for an
absent position) before the persist is attempted: the outcome's shard is
the updated handle whatever the persist answers, and the returned error
is exactly the persist call's answer on that already-updated handle. -/
theorem checkpoint_advances_before_persist
    (rc : RecordProcessorCheckpointer) (now : Int) (sn : Option String)
    (owner : String)
    (hq : rc.checkpoint.GetLeaseOwner rc.shard.ID = (owner, none))
    (ho : rc.shard.AssignedTo = owner)
    (hl : ¬ rc.shard.LeaseTimeout < now) :
    (rc.Checkpoint now sn).shard =
      rc.shard.SetCheckpoint
        (match sn with
         | none => ShardEnd
         | some p => CheckpointValue.seq p) ∧
    (rc.Checkpoint now sn).persistCalled = true ∧
    (rc.Checkpoint now sn).result =
      rc.checkpoint.CheckpointSequence ((rc.Checkpoint now sn).shard) := by
  cases sn <;>
    simp [RecordProcessorCheckpointer.Checkpoint, hq, ho, hl,
      ShardStatus.SetCheckpoint, ShardEnd]

/-- Witness for C8 at the concrete state of `rcPersistFails`: the
persist step fails, yet the cached checkpoint value is advanced to the
requested position. -/
theorem checkpoint_advances_before_persist_witness :
    (rcPersistFails.checkpoint.GetLeaseOwner rcPersistFails.shard.ID =
       ("W1", none) ∧
     rcPersistFails.shard.AssignedTo = "W1" ∧
     ¬ rcPersistFails.shard.LeaseTimeout < (0 : Int)) ∧
    (rcPersistFails.Checkpoint 0 (some "49590")).shard =
      rcPersistFails.shard.SetCheckpoint (CheckpointValue.seq "49590") ∧
    (rcPersistFails.Checkpoint 0 (some "49590")).persistCalled = true ∧
    (rcPersistFails.Checkpoint 0 (some "49590")).result =
      rcPersistFails.checkpoint.CheckpointSequence
        ((rcPersistFails.Checkpoint 0 (some "49590")).shard) :=
  ⟨⟨rfl, rfl, by decide⟩,
   checkpoint_advances_before_persist rcPersistFails 0 (some "49590") "W1" rfl
     rfl (by decide)⟩

/-- C9: with the ownership and lease checks passing, `Checkpoint` at an
absent (nil) position sets the handle's checkpoint value to the
`ShardEnd` sentinel — distinct from every concrete sequence-position
string — and then persists the handle through the ledger. -/
theorem checkpoint_absent_sets_shard_end
    (rc : RecordProcessorCheckpointer) (now : Int) (owner : String)
    (hq : rc.checkpoint.GetLeaseOwner rc.shard.ID = (owner, none))
    (ho : rc.shard.AssignedTo = owner)
    (hl : ¬ rc.shard.LeaseTimeout < now) :
    (rc.Checkpoint now none).shard.Checkpoint = ShardEnd ∧
    (rc.Checkpoint now none).persistCalled = true ∧
    (rc.Checkpoint now none).result =
      rc.checkpoint.CheckpointSequence ((rc.Checkpoint now none).shard) ∧
    ∀ s : String, ShardEnd ≠ CheckpointValue.seq s := by
  refine ⟨?_, ?_, ?_, fun s => by simp [ShardEnd]⟩ <;>
    simp [RecordProcessorCheckpointer.Checkpoint, hq, ho, hl,
      ShardStatus.SetCheckpoint, ShardEnd]

/-- Witness for C9 at the concrete state of `rcOk` with a nil position. -/
theorem checkpoint_absent_sets_shard_end_witness :
    (rcOk.checkpoint.GetLeaseOwner rcOk.shard.ID = ("W1", none) ∧
     rcOk.shard.AssignedTo = "W1" ∧
     ¬ rcOk.shard.LeaseTimeout < (0 : Int)) ∧
    (rcOk.Checkpoint 0 none).shard.Checkpoint = ShardEnd ∧
    (rcOk.Checkpoint 0 none).persistCalled = true ∧
    (rcOk.Checkpoint 0 none).result =
      rcOk.checkpoint.CheckpointSequence ((rcOk.Checkpoint 0 none).shard) ∧
    ∀ s : String, ShardEnd ≠ CheckpointValue.seq s :=
  ⟨⟨rfl, rfl, by decide⟩,
   checkpoint_absent_sets_shard_end rcOk 0 "W1" rfl rfl (by decide)⟩

/-- C10: calling `Checkpoint(p)` twice in immediate succession — ledger
owner unchanged and matching, lease unexpired at both instants, persist
succeeding — succeeds both times, and after each call the handle's
checkpoint value equals `p`. -/
theorem checkpoint_idempotent_twice
    (rc : RecordProcessorCheckpointer) (now1 now2 : Int) (p owner : String)
    (hq : rc.checkpoint.GetLeaseOwner rc.shard.ID = (owner, none))
    (ho : rc.shard.AssignedTo = owner)
    (hl1 : ¬ rc.shard.LeaseTimeout < now1)
    (hl2 : ¬ rc.shard.LeaseTimeout < now2)
    (hp : rc.checkpoint.CheckpointSequence
            (rc.shard.SetCheckpoint (CheckpointValue.seq p)) = none) :
    (rc.Checkpoint now1 (some p)).result = none ∧
    (rc.Checkpoint now1 (some p)).shard.Checkpoint = CheckpointValue.seq p ∧
    (RecordProcessorCheckpointer.Checkpoint
      { shard := (rc.Checkpoint now1 (some p)).shard
        checkpoint := rc.checkpoint } now2 (some p)).result = none ∧
    (RecordProcessorCheckpointer.Checkpoint
      { shard := (rc.Checkpoint now1 (some p)).shard
        checkpoint := rc.checkpoint } now2 (some p)).shard.Checkpoint =
      CheckpointValue.seq p := by
  simp [ShardStatus.SetCheckpoint, ho] at hp
  simp [RecordProcessorCheckpointer.Checkpoint, hq, ho, hl1, hl2, hp,
    ShardStatus.SetCheckpoint]

/-- Witness for C10 at the concrete state of `rcOk`, instants 0 and 1,
position `"49590"`. -/
theorem checkpoint_idempotent_twice_witness :
    (rcOk.checkpoint.GetLeaseOwner rcOk.shard.ID = ("W1", none) ∧
     rcOk.shard.AssignedTo = "W1" ∧
     ¬ rcOk.shard.LeaseTimeout < (0 : Int) ∧
     ¬ rcOk.shard.LeaseTimeout < (1 : Int) ∧
     rcOk.checkpoint.CheckpointSequence
       (rcOk.shard.SetCheckpoint (CheckpointValue.seq "49590")) = none) ∧
    (rcOk.Checkpoint 0 (some "49590")).result = none ∧
    (rcOk.Checkpoint 0 (some "49590")).shard.Checkpoint =
      CheckpointValue.seq "49590" ∧
    (RecordProcessorCheckpointer.Checkpoint
      { shard := (rcOk.Checkpoint 0 (some "49590")).shard
        checkpoint := rcOk.checkpoint } 1 (some "49590")).result = none ∧
    (RecordProcessorCheckpointer.Checkpoint
      { shard := (rcOk.Checkpoint 0 (some "49590")).shard
        checkpoint := rcOk.checkpoint } 1 (some "49590")).shard.Checkpoint =
      CheckpointValue.seq "49590" :=
  ⟨⟨rfl, rfl, by decide, by decide, rfl⟩,
   checkpoint_idempotent_twice rcOk 0 1 "49590" "W1" rfl rfl (by decide)
     (by decide) rfl⟩

end KCL
